import Mathlib

/-!
Verification development for the QSL repository (e-QSL card sender).

The definitions below are a shallow embedding of the Python sources:
  - `src/eqsl/_eqsl.py` (the installed package; top-level definitions here),
  - `src/eqsl.py` (the older standalone script; namespace `EqslOld`).

Machine integers and epoch timestamps are modelled as `Int`; strings as
Lean `String` (the inputs of interest are ASCII, so Python's `str.upper`
and `str.lower` coincide with per-character ASCII case mapping).  Python
`float` values that the claims never inspect numerically (FREQ, TX_PWR)
are carried as their raw source strings.  Fallible code is modelled with
`Option`/`Except`, and externally injected I/O faults (missing dbm store,
read/write errors) are explicit boolean parameters.
-/

/-! ## Python `datetime.strptime(_, "%Y%m%d%H%M")`

CPython compiles the format to the regex
`(\d\d\d\d)(1[0-2]|0[1-9]|[1-9])(3[01]|[12]\d|0[1-9]|[1-9])(2[0-3]|[0-1]\d|\d)([0-5]\d|\d)`,
finds the first (leftmost-greedy, backtracking) match, and then raises
if the match did not consume the whole input.  Each `cands*` function
lists the alternatives of one group in the regex's preference order;
`strptime_match` is the depth-first search over those alternatives. -/

/-- Numeric value of an ASCII digit character. -/
def dval (c : Char) : Nat := c.toNat - 48

/-- Candidates for `%Y` (exactly four digits). -/
def candsY : List Char → List (Nat × List Char)
  | a :: b :: c :: d :: r =>
    if a.isDigit ∧ b.isDigit ∧ c.isDigit ∧ d.isDigit then
      [(1000 * dval a + 100 * dval b + 10 * dval c + dval d, r)]
    else []
  | _ => []

/-- Candidates for `%m`, alternatives in regex order `1[0-2]|0[1-9]|[1-9]`. -/
def candsm (s : List Char) : List (Nat × List Char) :=
  (match s with
   | '1' :: c :: r => if '0' ≤ c ∧ c ≤ '2' then [(10 + dval c, r)] else []
   | _ => []) ++
  (match s with
   | '0' :: c :: r => if '1' ≤ c ∧ c ≤ '9' then [(dval c, r)] else []
   | _ => []) ++
  (match s with
   | c :: r => if '1' ≤ c ∧ c ≤ '9' then [(dval c, r)] else []
   | _ => [])

/-- Candidates for `%d`, alternatives in regex order `3[01]|[12]\d|0[1-9]|[1-9]`. -/
def candsd (s : List Char) : List (Nat × List Char) :=
  (match s with
   | '3' :: c :: r => if c = '0' ∨ c = '1' then [(30 + dval c, r)] else []
   | _ => []) ++
  (match s with
   | c1 :: c2 :: r => if (c1 = '1' ∨ c1 = '2') ∧ c2.isDigit then
       [(10 * dval c1 + dval c2, r)] else []
   | _ => []) ++
  (match s with
   | '0' :: c :: r => if '1' ≤ c ∧ c ≤ '9' then [(dval c, r)] else []
   | _ => []) ++
  (match s with
   | c :: r => if '1' ≤ c ∧ c ≤ '9' then [(dval c, r)] else []
   | _ => [])

/-- Candidates for `%H`, alternatives in regex order `2[0-3]|[0-1]\d|\d`. -/
def candsH (s : List Char) : List (Nat × List Char) :=
  (match s with
   | '2' :: c :: r => if '0' ≤ c ∧ c ≤ '3' then [(20 + dval c, r)] else []
   | _ => []) ++
  (match s with
   | c1 :: c2 :: r => if (c1 = '0' ∨ c1 = '1') ∧ c2.isDigit then
       [(10 * dval c1 + dval c2, r)] else []
   | _ => []) ++
  (match s with
   | c :: r => if c.isDigit then [(dval c, r)] else []
   | _ => [])

/-- Candidates for `%M`, alternatives in regex order `[0-5]\d|\d`. -/
def candsM (s : List Char) : List (Nat × List Char) :=
  (match s with
   | c1 :: c2 :: r => if ('0' ≤ c1 ∧ c1 ≤ '5') ∧ c2.isDigit then
       [(10 * dval c1 + dval c2, r)] else []
   | _ => []) ++
  (match s with
   | c :: r => if c.isDigit then [(dval c, r)] else []
   | _ => [])

/-- Leftmost-greedy backtracking match of the `%Y%m%d%H%M` regex against a
prefix of the input; returns the five fields and the unconsumed rest. -/
def strptime_match (s : List Char) :
    Option (Nat × Nat × Nat × Nat × Nat × List Char) :=
  (candsY s).findSome? fun yc =>
  (candsm yc.2).findSome? fun mc =>
  (candsd mc.2).findSome? fun dc =>
  (candsH dc.2).findSome? fun hc =>
  (candsM hc.2).findSome? fun mic =>
  some (yc.1, mc.1, dc.1, hc.1, mic.1, mic.2)

/-- Gregorian leap year. -/
def isLeap (y : Nat) : Bool := y % 4 = 0 ∧ (y % 100 ≠ 0 ∨ y % 400 = 0)

/-- Number of days in a month (for `datetime`'s day-of-month validation). -/
def daysInMonth (y m : Nat) : Nat :=
  if m = 2 then (if isLeap y then 29 else 28)
  else if m = 4 ∨ m = 6 ∨ m = 9 ∨ m = 11 then 30 else 31

/-- `datetime.strptime(s, "%Y%m%d%HH%M")`-style parse: the regex match must
consume the whole string ("unconverted data remains" otherwise) and the
resulting fields must form a valid `datetime` (year nonzero, day within
the month; the regex already bounds month, hour and minute). -/
def strptime_YmdHM (s : List Char) : Option (Nat × Nat × Nat × Nat × Nat) :=
  match strptime_match s with
  | none => none
  | some (y, m, d, h, mi, rest) =>
    if rest = [] ∧ y ≠ 0 ∧ d ≤ daysInMonth y m then some (y, m, d, h, mi) else none

/-- Days from 1970-01-01 to the given civil date (Hinnant's algorithm). -/
def days_from_civil (y m d : Int) : Int :=
  let y' := if m ≤ 2 then y - 1 else y
  let era := Int.fdiv y' 400
  let yoe := y' - era * 400
  let doy := (153 * (m + (if 2 < m then (-3 : Int) else 9)) + 2) / 5 + d - 1
  let doe := yoe * 365 + yoe / 4 - yoe / 100 + doy
  era * 146097 + doe - 719468

/-- Python `s[:-2]` on the character list of a string. -/
def dropLast2 (l : List Char) : List Char := l.dropLast.dropLast

/-- `qso_timestamp(day, time)` from both `_eqsl.py` and `eqsl.py`:
`datetime.strptime(day + time[:-2], '%Y%m%d%H%M').timestamp()`.
A naive `datetime`'s `.timestamp()` interprets the wall-clock fields in
the run's fixed local UTC offset, modelled by the explicit parameter
`tz` (seconds east of UTC); the result is epoch seconds. -/
def qso_timestamp (tz : Int) (day : String) (time : String) : Option Int :=
  match strptime_YmdHM (day.data ++ dropLast2 time.data) with
  | none => none
  | some (y, m, d, h, mi) =>
    some (86400 * days_from_civil y m d + 3600 * (h : Int) + 60 * (mi : Int) - tz)

/-! ## Raw records and string helpers -/

/-- A raw ADIF record as handed to the program by `adif_io`: an ordered
field-name/value mapping. -/
def RawQSO : Type := List (String × String)

instance : DecidableEq RawQSO := inferInstanceAs (DecidableEq (List (String × String)))

/-- Python `qso.get(k)` on a raw record. -/
def rawGet (qso : RawQSO) (k : String) : Option String :=
  (qso.find? (fun p => p.1 = k)).map (fun p => p.2)

/-- Python `str.upper()` for ASCII strings. -/
def pyUpper (s : String) : String := String.mk (s.data.map Char.toUpper)

/-- Python `str.lower()` for ASCII strings. -/
def pyLower (s : String) : String := String.mk (s.data.map Char.toLower)

/-! ## The installed package `src/eqsl/_eqsl.py` -/

/-- The subset of the YAML configuration that normalization reads:
default operator identity fields and the qrz.com API key (which may be
absent from the configuration file). -/
structure Config where
  call : String
  gridsquare : String
  myrig : String
  qrz_key : Option String
deriving DecidableEq

/-- The `QSOData` dataclass of `_eqsl.py`.  `frequency` and `tx_pwr` keep
their raw source strings (the claims never inspect their numeric values);
`timestamp` is epoch seconds; `email` is `none` when the qrz.com lookup
found no address. -/
structure QSOData where
  my_call : String
  my_gridsquare : String
  my_rig : String
  call : String
  frequency : String
  band : String
  mode : String
  rst_sent : String
  rst_rcvd : String
  tx_pwr : String
  timestamp : Int
  name : String
  email : Option String
  sota_ref : Option String
  pota_ref : Option String
  lang : String
deriving DecidableEq

/-- How `QSOData.__init__` can fail: a `KeyError` on a mandatory raw field,
a `ValueError` from `datetime.strptime`, or the `SystemExit` raised by
`email_lookup` when no qrz.com API key is configured. -/
inductive NormErr where
  | missingKey (k : String)
  | dateParseError
  | qrzKeyMissing
deriving DecidableEq

/-- Python `qso[k]`: the value, or a `KeyError` carrying the key name. -/
def requireKey (qso : RawQSO) (k : String) : Except NormErr String :=
  match rawGet qso k with
  | some v => .ok v
  | none => .error (.missingKey k)

/-- `QSOData.email_lookup`: exits the run if the configuration has no
qrz.com API key; otherwise queries the directory (modelled by `lookup`,
`none` meaning `QRZ.NotFound` or no email on file) and returns the email
or `None`. -/
def email_lookup (lookup : String → Option String) (cfg : Config)
    (call : String) : Except NormErr (Option String) :=
  match cfg.qrz_key with
  | none => .error .qrzKeyMissing
  | some _ => .ok (lookup call)

/-- `QSOData.__init__(qso, cfg)` with field evaluation in source order.
Note two Python evaluation subtleties carried over faithfully:
`qso.get('QSO_DATE_OFF', qso['QSO_DATE'])` evaluates `qso['QSO_DATE']`
first (so a missing `QSO_DATE` raises even when `QSO_DATE_OFF` is
present), and `qso.get('EMAIL', self.email_lookup(...))` always invokes
`email_lookup` because Python evaluates the default argument eagerly.
The returned `Bool` records that `email_lookup` was invoked. -/
def QSOData.normalize (tz : Int) (lookup : String → Option String) (cfg : Config)
    (qso : RawQSO) : Except NormErr (QSOData × Bool) := do
  let qdate ← requireKey qso "QSO_DATE"
  let date_on := (rawGet qso "QSO_DATE_OFF").getD qdate
  let time_on := (rawGet qso "TIME_OFF").getD ((rawGet qso "TIME_ON").getD "0000")
  let my_call := (rawGet qso "OPERATOR").getD cfg.call
  let my_gridsquare := (rawGet qso "MY_GRIDSQUARE").getD cfg.gridsquare
  let my_rig := (rawGet qso "MY_RIG").getD cfg.myrig
  let call ← requireKey qso "CALL"
  let frequency ← requireKey qso "FREQ"
  let band ← requireKey qso "BAND"
  let mode ← requireKey qso "MODE"
  let rst_sent := (rawGet qso "RST_SENT").getD "599"
  let rst_rcvd := (rawGet qso "RST_RCVD").getD "599"
  let tx_pwr := (rawGet qso "TX_PWR").getD "100"
  let timestamp ← match qso_timestamp tz date_on time_on with
    | some t => Except.ok t
    | none => Except.error NormErr.dateParseError
  let name := (rawGet qso "NAME").getD "Dear OM"
  let emailDefault ← email_lookup lookup cfg call
  let email := match rawGet qso "EMAIL" with
    | some e => some e
    | none => emailDefault
  pure ({ my_call, my_gridsquare, my_rig, call, frequency, band, mode,
          rst_sent, rst_rcvd, tx_pwr, timestamp, name, email,
          sota_ref := rawGet qso "SOTA_REF", pota_ref := rawGet qso "POTA_REF",
          lang := pyLower ((rawGet qso "COUNTRY").getD "default") }, true)

/-- `CACHE_EXPIRE = 86400 * 8` from `_eqsl.py`. -/
def CACHE_EXPIRE : Int := 86400 * 8

/-- A value physically stored in the dbm cache: a well-formed pickled
`QSOData`, or bytes that `pickle.loads` cannot decode. -/
inductive Entry where
  | good (q : QSOData)
  | corrupt
deriving DecidableEq

/-- The persistent dbm store, as a key/value mapping. -/
def Cache : Type := String → Option Entry

/-- A dbm store write: `qdb[key] = value`, overwriting any prior entry. -/
def insertCache (c : Cache) (k : String) (v : Entry) : Cache :=
  fun k' => if k' = k then some v else c k'

/-- The cache key built on line 308 of `_eqsl.py`:
`f'{qso.call}-{qso.band}-{qso.mode}'.upper()`. -/
def key_of (q : QSOData) : String := pyUpper (q.call ++ "-" ++ q.band ++ "-" ++ q.mode)

/-- The read half of `already_sent` can abort: `pickle.loads` on a corrupt
entry raises `UnpicklingError`, which none of the `except` clauses
(`dbm.error`, `KeyError`, `IOError`) catch. -/
inductive CacheErr where
  | unpicklingError
deriving DecidableEq

/-- `already_sent(qso)` from `_eqsl.py`.  `readFail` injects a `dbm.error`
or `IOError` while opening/reading the store for read (including the
store not existing); `writeFail` injects an `IOError` on the write-back,
which is logged and swallowed.  On a fresh (non-stale) cached entry the
function returns `True` without writing; on every other non-raising path
it stores the current record under the key and returns `False`. -/
def already_sent (readFail writeFail : Bool) (cache : Cache) (now : Int)
    (qso : QSOData) : Except CacheErr (Bool × Cache) :=
  let key := key_of qso
  let hit : Except CacheErr Bool :=
    if readFail then .ok false
    else match cache key with
      | none => .ok false
      | some .corrupt => .error .unpicklingError
      | some (.good cached) => .ok (decide (cached.timestamp > now - CACHE_EXPIRE))
  match hit with
  | .error e => .error e
  | .ok true => .ok (true, cache)
  | .ok false =>
    if writeFail then .ok (false, cache)
    else .ok (false, insertCache cache key (.good qso))

/-- The command-line options of `_eqsl.py` that the loop body reads. -/
structure Opts where
  resend : Bool
  keep : Bool
  no_email : Bool
deriving DecidableEq

/-- Per-record terminal outcome of one iteration of `_eqsl.py`'s main loop. -/
inductive Outcome where
  | skippedDup
  | sent
  | recipientRefused
  | cardNoMail
deriving DecidableEq

/-- Ways one iteration of `_eqsl.py`'s main loop aborts the whole run. -/
inductive Abort where
  | missingAdifKey (k : String)
  | dateParseAbort
  | qrzKeyExit
  | unpicklingAbort
  | unboundLocalAbort
deriving DecidableEq

/-- Observable side effects of one iteration, in program order. -/
inductive Effect where
  | cacheRead
  | cacheWrite
  | genCard
  | sendMail
  | rmImage
deriving DecidableEq

/-- One iteration of the `for _qso in qsos_raw` loop of `_eqsl.py`'s
`main` (lines 359-381): construct `QSOData` (a `KeyError` becomes
`SystemExit`), consult `already_sent` unless `--resend`, then generate
the card and mail it unless `--no-email` (`SMTPRecipientsRefused` is
caught and logged), and finally `os.unlink(image_name)` unless `--keep`
— where `image_name` is unassigned whenever the card-generation branch
did not run.  `sendRefused` injects an `SMTPRecipientsRefused` from the
mailer.  Returns the iteration's fate, the resulting cache, and the
side effects performed, in order. -/
def mainStep (opts : Opts) (tz : Int) (lookup : String → Option String)
    (cfg : Config) (readFail writeFail sendRefused : Bool) (cache : Cache)
    (now : Int) (qso : RawQSO) : Except Abort Outcome × Cache × List Effect :=
  match QSOData.normalize tz lookup cfg qso with
  | .error (.missingKey k) => (.error (.missingAdifKey k), cache, [])
  | .error .dateParseError => (.error .dateParseAbort, cache, [])
  | .error .qrzKeyMissing => (.error .qrzKeyExit, cache, [])
  | .ok (q, _) =>
    let after : Cache → List Effect → Except Abort Outcome × Cache × List Effect :=
      fun c es =>
        let (image_name, es, outcome) :=
          if opts.no_email then ((none : Option String), es, Outcome.cardNoMail)
          else (some "QSL-card.jpg", es ++ [.genCard, .sendMail],
                if sendRefused then Outcome.recipientRefused else Outcome.sent)
        if opts.keep then (.ok outcome, c, es)
        else match image_name with
          | none => (.error .unboundLocalAbort, c, es)
          | some _ => (.ok outcome, c, es ++ [.rmImage])
    if opts.resend then after cache []
    else match already_sent readFail writeFail cache now q with
      | .error _ => (.error .unpicklingAbort, cache, [.cacheRead])
      | .ok (true, c') => (.ok .skippedDup, c', [.cacheRead])
      | .ok (false, c') =>
        after c' ([.cacheRead] ++ if writeFail then [] else [.cacheWrite])

/-! ## The older standalone script `src/eqsl.py` -/

/-- `RE_US_SPECIAL = re.compile('[KNW]\d\w')` applied with `.fullmatch`:
the whole call sign must be exactly one of `K`/`N`/`W`, a digit, and one
word character. -/
def isWordChar (c : Char) : Bool := c.isAlphanum || c = '_'

/-- `RE_US_SPECIAL.fullmatch(call) is not None`. -/
def RE_US_SPECIAL_fullmatch (s : String) : Bool :=
  match s.data with
  | [c1, c2, c3] => (c1 = 'K' ∨ c1 = 'N' ∨ c1 = 'W') ∧ c2.isDigit ∧ isWordChar c3
  | _ => false

namespace EqslOld

/-- The old script's dbm cache stores the marshalled raw record. -/
def CacheO : Type := String → Option RawQSO

/-- `already_sent(qso)` from `eqsl.py`: key is call and band only (no
mode), existence-only check (no expiry), write-back on miss, and one
`except (dbm.error, IOError)` swallowing any cache I/O error (`ioFail`).
The `qso['CALL']`/`qso['BAND']` accesses are outside any handler, so a
missing key is an uncaught `KeyError` (`none`). -/
def already_sent (ioFail : Bool) (cache : CacheO) (qso : RawQSO) :
    Option (Bool × CacheO) :=
  match rawGet qso "CALL" with
  | none => none
  | some call =>
    match rawGet qso "BAND" with
    | none => none
    | some band =>
      let key := pyUpper (call ++ "-" ++ band)
      if ioFail then some (false, cache)
      else if (cache key).isSome then some (true, cache)
      else some (false, fun k => if k = key then some qso else cache k)

/-- Per-record outcome of the old script's loop, up to the hand-off to
card rendering and mailing. -/
inductive Outcome where
  | skippedSpecial
  | skippedDup
  | skippedNoEmail
  | proceeded
deriving DecidableEq

/-- One iteration of `eqsl.py`'s main loop (lines 301-337), up to the
send hand-off: the `RE_US_SPECIAL` filter first, then the duplicate
check (when `--uniq` is in force), then the email presence check with
its qrz.com fallback (`lookup call = none` models "not found or no
email on file").  `none` models an uncaught `KeyError` ending the run. -/
def loopStep (uniq ioFail : Bool) (lookup : String → Option String)
    (cache : CacheO) (qso : RawQSO) : Option (Outcome × CacheO) :=
  match rawGet qso "CALL" with
  | none => none
  | some call =>
    if RE_US_SPECIAL_fullmatch call then some (.skippedSpecial, cache)
    else
      let dedup : Option (Bool × CacheO) :=
        if uniq then already_sent ioFail cache qso else some (false, cache)
      match dedup with
      | none => none
      | some (true, c') => some (.skippedDup, c')
      | some (false, c') =>
        let emailPresent : Bool :=
          match rawGet qso "EMAIL" with
          | some e => decide (e ≠ "")
          | none => false
        if emailPresent then some (.proceeded, c')
        else match lookup call with
          | none => some (.skippedNoEmail, c')
          | some _ => some (.proceeded, c')

end EqslOld

/-! ## Concrete sample data shared by witnesses and counterexamples -/

/-- A `QSOData` with the given call, band and mode and fixed other fields. -/
def mkQSO (call band mode : String) : QSOData :=
  { my_call := "W6BSD", my_gridsquare := "CM87", my_rig := "rig", call,
    frequency := "14.074", band, mode, rst_sent := "599", rst_rcvd := "599",
    tx_pwr := "100", timestamp := 0, name := "Dear OM", email := none,
    sota_ref := none, pota_ref := none, lang := "default" }

/-- Sample normalized record. -/
def sampleQSO : QSOData := mkQSO "W6BSD" "20M" "FT8"

/-- The empty dbm store. -/
def emptyCache : Cache := fun _ => none

/-- Sample raw ADIF record with an explicit email address. -/
def sampleRaw : RawQSO :=
  [("CALL", "W6BSD"), ("FREQ", "14.074"), ("BAND", "20M"), ("MODE", "FT8"),
   ("QSO_DATE", "20240115"), ("TIME_ON", "143000"), ("EMAIL", "op@example.org")]

/-- Sample configuration with a qrz.com API key. -/
def cfg0 : Config :=
  { call := "K6XYZ", gridsquare := "CM87", myrig := "IC-705", qrz_key := some "abcd" }

/-- A directory in which no call sign resolves to an email. -/
def lk0 : String → Option String := fun _ => none

/-- What `normalize` produces on `sampleRaw` with `cfg0`. -/
def q0 : QSOData :=
  { my_call := "K6XYZ", my_gridsquare := "CM87", my_rig := "IC-705",
    call := "W6BSD", frequency := "14.074", band := "20M", mode := "FT8",
    rst_sent := "599", rst_rcvd := "599", tx_pwr := "100",
    timestamp := 1705329000, name := "Dear OM", email := some "op@example.org",
    sota_ref := none, pota_ref := none, lang := "default" }

/-- Raw record with explicit date-off/time-off fields that differ from the
on-fields; the off-fields denote 2024-01-15T14:30:00. -/
def sampleRawOff : RawQSO :=
  [("CALL", "W6BSD"), ("FREQ", "14.074"), ("BAND", "20M"), ("MODE", "FT8"),
   ("QSO_DATE", "20240101"), ("QSO_DATE_OFF", "20240115"),
   ("TIME_ON", "101000"), ("TIME_OFF", "143000"), ("EMAIL", "op@example.org")]

/-- A cache holding undecodable bytes under `sampleQSO`'s key. -/
def corruptCache : Cache := insertCache emptyCache (key_of sampleQSO) .corrupt

/-- Raw record whose call sign is `K1ABC`. -/
def k1abcRecord : RawQSO := [("CALL", "K1ABC"), ("BAND", "20M"), ("EMAIL", "a@b.c")]

/-! ## Helper lemmas -/

theorem str_data_append (s t : String) : (s ++ t).data = s.data ++ t.data := by
  cases s; cases t; rfl

theorem str_data_inj {s t : String} (h : s.data = t.data) : s = t :=
  congrArg String.mk h

/-- The character list underlying a cache key, with upper-casing pushed to
the three components (the separator is fixed by upper-casing). -/
theorem key_of_data (q : QSOData) : (key_of q).data =
    q.call.data.map Char.toUpper ++
      ('-' :: (q.band.data.map Char.toUpper ++ ('-' :: q.mode.data.map Char.toUpper))) := by
  have hdash : ("-" : String).data = ['-'] := rfl
  have hup : Char.toUpper '-' = '-' := by decide
  simp [key_of, pyUpper, str_data_append, hdash, hup]

/-- Inversion of a successful `QSOData.normalize`: the mandatory date field
was present, the stored timestamp is `qso_timestamp` of the off-preferring
date/time selections, `email_lookup` was invoked (so a qrz.com key was
configured), and the stored email is the raw one when present, else the
directory result. -/
theorem normalize_ok_inv {tz : Int} {lookup : String → Option String}
    {cfg : Config} {qso : RawQSO} {q : QSOData} {b : Bool}
    (hok : QSOData.normalize tz lookup cfg qso = .ok (q, b)) :
    ∃ d, rawGet qso "QSO_DATE" = some d ∧
      qso_timestamp tz ((rawGet qso "QSO_DATE_OFF").getD d)
          ((rawGet qso "TIME_OFF").getD ((rawGet qso "TIME_ON").getD "0000"))
        = some q.timestamp ∧
      b = true ∧
      q.email = (match rawGet qso "EMAIL" with
                 | some e => some e
                 | none => lookup q.call) ∧
      cfg.qrz_key ≠ none := by
  unfold QSOData.normalize requireKey email_lookup at hok
  simp only [bind, Except.bind, pure, Except.pure] at hok
  cases hqd : rawGet qso "QSO_DATE" with
  | none => simp [hqd] at hok
  | some d =>
  simp only [hqd] at hok
  cases hc : rawGet qso "CALL" with
  | none => simp [hc] at hok
  | some call =>
  simp only [hc] at hok
  cases hf : rawGet qso "FREQ" with
  | none => simp [hf] at hok
  | some freq =>
  simp only [hf] at hok
  cases hb : rawGet qso "BAND" with
  | none => simp [hb] at hok
  | some band =>
  simp only [hb] at hok
  cases hm : rawGet qso "MODE" with
  | none => simp [hm] at hok
  | some mode =>
  simp only [hm] at hok
  cases hts : qso_timestamp tz ((rawGet qso "QSO_DATE_OFF").getD d)
      ((rawGet qso "TIME_OFF").getD ((rawGet qso "TIME_ON").getD "0000")) with
  | none => simp [hts] at hok
  | some t =>
  simp only [hts] at hok
  cases hk : cfg.qrz_key with
  | none => simp [hk] at hok
  | some key =>
  simp only [hk] at hok
  simp only [Except.ok.injEq, Prod.mk.injEq] at hok
  obtain ⟨hq, hb'⟩ := hok
  subst hq
  subst hb'
  refine ⟨d, rfl, by simpa using hts, rfl, by simp, by simp [hk]⟩

/-- A raw record missing any of the five mandatory fields makes
`QSOData.__init__` raise a `KeyError` (in source evaluation order:
`QSO_DATE` first, then `CALL`, `FREQ`, `BAND`, `MODE`). -/
theorem normalize_missing_err {tz : Int} {lookup : String → Option String}
    {cfg : Config} {qso : RawQSO}
    (h : rawGet qso "CALL" = none ∨ rawGet qso "FREQ" = none ∨
         rawGet qso "BAND" = none ∨ rawGet qso "MODE" = none ∨
         rawGet qso "QSO_DATE" = none) :
    ∃ k, QSOData.normalize tz lookup cfg qso = .error (.missingKey k) := by
  unfold QSOData.normalize requireKey email_lookup
  simp only [bind, Except.bind, pure, Except.pure]
  cases hqd : rawGet qso "QSO_DATE" with
  | none => exact ⟨"QSO_DATE", by simp⟩
  | some d =>
  simp only
  cases hc : rawGet qso "CALL" with
  | none => exact ⟨"CALL", by simp⟩
  | some call =>
  simp only
  cases hf : rawGet qso "FREQ" with
  | none => exact ⟨"FREQ", by simp⟩
  | some freq =>
  simp only
  cases hb : rawGet qso "BAND" with
  | none => exact ⟨"BAND", by simp⟩
  | some band =>
  simp only
  cases hm : rawGet qso "MODE" with
  | none => exact ⟨"MODE", by simp⟩
  | some mode =>
  rcases h with h | h | h | h | h <;> simp_all

/-! ## Claim theorems -/

/-- Claim C1 (confirmed): once `already_sent` has stored an entry under a
key, a later `already_sent` query for a record with that key (no injected
I/O faults) returns `True` exactly when the stored entry's recorded
timestamp is within the fixed retention window `CACHE_EXPIRE = 86400*8`
seconds of the current time; an entry at least `CACHE_EXPIRE` old yields
`False` — the stale entry is treated as absent although still stored. -/
theorem c1_was_sent_window (cache : Cache) (now : Int) (stored q : QSOData)
    (hkey : key_of stored = key_of q) :
    Except.map (fun r => r.1)
        (already_sent false false
          (insertCache cache (key_of stored) (.good stored)) now q)
      = .ok (decide (stored.timestamp > now - CACHE_EXPIRE)) ∧
    CACHE_EXPIRE = 86400 * 8 := by
  refine ⟨?_, rfl⟩
  have hl : insertCache cache (key_of stored) (.good stored) (key_of q)
      = some (.good stored) := by
    simp [insertCache, hkey]
  by_cases hfresh : stored.timestamp > now - CACHE_EXPIRE <;>
    simp [already_sent, hl, hfresh, Except.map]

/-- Witness for C1 at a concrete store, record and clock. -/
theorem c1_was_sent_window_witness :
    Except.map (fun r => r.1)
        (already_sent false false
          (insertCache emptyCache (key_of sampleQSO) (.good sampleQSO)) 0 sampleQSO)
      = .ok true ∧ CACHE_EXPIRE = 86400 * 8 := by
  have h := c1_was_sent_window emptyCache 0 sampleQSO sampleQSO rfl
  have hb : (decide (sampleQSO.timestamp > 0 - CACHE_EXPIRE)) = true := by decide
  rw [hb] at h
  exact h

/-- Claim C2, counterexample: two records with the same call sign and mode
whose bands differ ("20m" vs "20M") are mapped to the same cache key by
the upper-casing, refuting "a different band maps to a different key". -/
theorem c2_counterexample :
    key_of (mkQSO "W6BSD" "20m" "CW") = key_of (mkQSO "W6BSD" "20M" "CW") ∧
    (mkQSO "W6BSD" "20m" "CW").band ≠ (mkQSO "W6BSD" "20M" "CW").band := by
  exact ⟨by decide, by decide⟩

/-- Claim C2 (amended): the cache key is call-band-mode upper-cased and
joined with "-"; records agreeing on call, band and mode share a key, and
for a fixed call sign, records whose bands differ after upper-casing (same
mode up to case), or whose modes differ after upper-casing (same band up
to case), get different keys. -/
theorem c2_amended_key_distinct (q1 q2 : QSOData) (hc : q1.call = q2.call) :
    (q1.band = q2.band → q1.mode = q2.mode → key_of q1 = key_of q2) ∧
    (pyUpper q1.mode = pyUpper q2.mode → pyUpper q1.band ≠ pyUpper q2.band →
      key_of q1 ≠ key_of q2) ∧
    (pyUpper q1.band = pyUpper q2.band → pyUpper q1.mode ≠ pyUpper q2.mode →
      key_of q1 ≠ key_of q2) := by
  have hCall : q1.call.data.map Char.toUpper = q2.call.data.map Char.toUpper := by
    rw [hc]
  refine ⟨fun hb hm => by simp [key_of, hc, hb, hm], ?_, ?_⟩
  · intro hm hbne hkey
    apply hbne
    have h := congrArg String.data hkey
    rw [key_of_data, key_of_data, hCall] at h
    have h1 := List.append_cancel_left h
    have h2 := List.cons_injective h1
    have hModeData : q1.mode.data.map Char.toUpper = q2.mode.data.map Char.toUpper :=
      congrArg String.data hm
    rw [hModeData] at h2
    have h3 := List.append_cancel_right h2
    exact str_data_inj h3
  · intro hb hmne hkey
    apply hmne
    have h := congrArg String.data hkey
    rw [key_of_data, key_of_data, hCall] at h
    have h1 := List.append_cancel_left h
    have h2 := List.cons_injective h1
    have hBandData : q1.band.data.map Char.toUpper = q2.band.data.map Char.toUpper :=
      congrArg String.data hb
    rw [hBandData] at h2
    have h3 := List.append_cancel_left h2
    have h4 := List.cons_injective h3
    exact str_data_inj h4

/-- Witness for C2's amended claim: same call and mode, genuinely distinct
bands give distinct keys. -/
theorem c2_amended_key_distinct_witness :
    key_of (mkQSO "W6BSD" "20M" "CW") ≠ key_of (mkQSO "W6BSD" "40M" "CW") :=
  (c2_amended_key_distinct (mkQSO "W6BSD" "20M" "CW") (mkQSO "W6BSD" "40M" "CW")
    rfl).2.1 rfl (by decide)

/-- Claim C3, counterexample: on date "20240115" and time "1430Z" the code
drops the time's last two characters (leaving "143"), so the strptime
backtracking parses hour 14 and minute 3; with UTC offset 0 the result is
the epoch of 2024-01-15T14:03:00 (1705327380), not of 14:30:00
(1705329000 = our day arithmetic plus 14 h 30 min). -/
theorem c3_counterexample :
    qso_timestamp 0 "20240115" "1430Z" = some 1705327380 ∧
    qso_timestamp 0 "20240115" "1430Z" ≠ some 1705329000 ∧
    (1705329000 : Int) = 86400 * days_from_civil 2024 1 15 + 3600 * 14 + 60 * 30 := by
  exact ⟨by decide, by decide, by decide⟩

/-- Claim C3 (amended): for date "20240115" and time "1430Z", under any
fixed run-consistent UTC offset `tz`, the derived timestamp is the epoch
value of 2024-01-15T14:03:00 — the truncation removes "0Z", leaving
"143", parsed as 14:03 by the fixed YYYYMMDDHHMM layout. -/
theorem c3_amended_timestamp (tz : Int) :
    qso_timestamp tz "20240115" "1430Z" = some (1705327380 - tz) ∧
    (1705327380 : Int) = 86400 * days_from_civil 2024 1 15 + 3600 * 14 + 60 * 3 := by
  exact ⟨rfl, by decide⟩
/-- Claim C4, counterexample: `RE_US_SPECIAL.fullmatch` requires the whole
call sign to be three characters, so the five-character "K1ABC" does not
match and its record is NOT skipped by the special-station rule — the old
script's loop proceeds all the way to the send hand-off for it. -/
theorem c4_counterexample :
    RE_US_SPECIAL_fullmatch "K1ABC" = false ∧
    (EqslOld.loopStep true false lk0 (fun _ => none) k1abcRecord).map (fun r => r.1)
      = some EqslOld.Outcome.proceeded := by
  exact ⟨by decide, by decide⟩

/-- Claim C4 (amended): only call signs consisting of exactly a prefix
letter in the K/N/W set, a digit and one word character (1x1
special-event calls such as "K1A") are skipped, before any cache access,
directory lookup or send attempt; "K1ABC" and "VE3ABC" are not
filtered. -/
theorem c4_amended_special_filter :
    (∀ (u io : Bool) (lookup : String → Option String) (cache : EqslOld.CacheO)
       (qso : RawQSO) (call : String), rawGet qso "CALL" = some call →
       RE_US_SPECIAL_fullmatch call = true →
       EqslOld.loopStep u io lookup cache qso = some (.skippedSpecial, cache)) ∧
    RE_US_SPECIAL_fullmatch "K1A" = true ∧
    RE_US_SPECIAL_fullmatch "VE3ABC" = false ∧
    RE_US_SPECIAL_fullmatch "K1ABC" = false := by
  refine ⟨?_, by decide, by decide, by decide⟩
  intro u io lookup cache qso call hcall hmatch
  simp [EqslOld.loopStep, hcall, hmatch]

/-- Witness for C4's amended claim: a "K1A" record is skipped with the
cache untouched. -/
theorem c4_amended_special_filter_witness :
    EqslOld.loopStep true false lk0 (fun _ => none) [("CALL", "K1A")]
      = some (.skippedSpecial, fun _ => none) :=
  c4_amended_special_filter.1 true false lk0 (fun _ => none) [("CALL", "K1A")]
    "K1A" rfl (by decide)

/-- Claim C5 (code bug): when the raw record carries an EMAIL field,
`QSOData.__init__` still invokes the qrz.com directory lookup, because
`qso.get('EMAIL', self.email_lookup(...))` evaluates its default argument
eagerly — it even requires a qrz.com API key to be configured.  The email
VALUE used is the raw one, but the claim's "only when absent is the
lookup invoked" is contradicted by the code (whose own log line, "Email
address for %s not found in the ADIF file", fires spuriously). -/
theorem c5_email_lookup_always_invoked (tz : Int) (lookup : String → Option String)
    (cfg : Config) (qso : RawQSO) (q : QSOData) (b : Bool) (e : String)
    (he : rawGet qso "EMAIL" = some e)
    (hok : QSOData.normalize tz lookup cfg qso = .ok (q, b)) :
    b = true ∧ q.email = some e ∧ cfg.qrz_key ≠ none := by
  obtain ⟨d, _, _, hb, hemail, hkey⟩ := normalize_ok_inv hok
  refine ⟨hb, ?_, hkey⟩
  rw [hemail, he]

/-- Witness for C5 on a record that does contain an email address. -/
theorem c5_email_lookup_always_invoked_witness :
    QSOData.normalize 0 lk0 cfg0 sampleRaw = .ok (q0, true) ∧
    q0.email = some "op@example.org" ∧ cfg0.qrz_key ≠ none := by
  have hok : QSOData.normalize 0 lk0 cfg0 sampleRaw = .ok (q0, true) := by rfl
  have h := c5_email_lookup_always_invoked 0 lk0 cfg0 sampleRaw q0 true
    "op@example.org" rfl hok
  exact ⟨hok, h.2.1, h.2.2⟩

/-- Claim C6 (confirmed): a raw record missing the call sign, frequency,
band, mode or date field makes normalization fail with a missing-field
error (`KeyError`, turned into `SystemExit` by `main`), and the iteration
performs no cache read or write — the record never reaches send-tracking. -/
theorem c6_missing_field_no_tracking (opts : Opts) (tz : Int)
    (lookup : String → Option String) (cfg : Config) (rf wf sr : Bool)
    (cache : Cache) (now : Int) (qso : RawQSO)
    (h : rawGet qso "CALL" = none ∨ rawGet qso "FREQ" = none ∨
         rawGet qso "BAND" = none ∨ rawGet qso "MODE" = none ∨
         rawGet qso "QSO_DATE" = none) :
    ∃ k, mainStep opts tz lookup cfg rf wf sr cache now qso
      = (.error (.missingAdifKey k), cache, []) := by
  obtain ⟨k, hk⟩ := @normalize_missing_err tz lookup cfg qso h
  exact ⟨k, by simp [mainStep, hk]⟩

/-- Witness for C6 on the empty raw record. -/
theorem c6_missing_field_no_tracking_witness :
    ∃ k, mainStep ⟨false, false, false⟩ 0 lk0 cfg0 false false false emptyCache 0
        ([] : RawQSO)
      = (.error (.missingAdifKey k), emptyCache, []) :=
  c6_missing_field_no_tracking ⟨false, false, false⟩ 0 lk0 cfg0 false false false
    emptyCache 0 [] (.inl rfl)

/-- Claim C7, counterexample: a corrupted stored entry makes the
`already_sent` read raise (`pickle.loads` throws `UnpicklingError`, which
none of the `except dbm.error` / `except (KeyError, IOError)` clauses
catch), rather than return false. -/
theorem c7_counterexample :
    already_sent false false corruptCache 0 sampleQSO = .error .unpicklingError := by
  rfl

/-- Claim C7 (amended): a missing store (or any dbm/IO error on opening
for read) and an absent key both make `already_sent` return `False`
without raising, regardless of a write-back failure, which is only
logged; a corrupted stored entry, however, raises and aborts the batch. -/
theorem c7_amended_fail_open (rf wf : Bool) (cache : Cache) (now : Int)
    (qso : QSOData) (h : rf = true ∨ cache (key_of qso) = none) :
    ∃ c', already_sent rf wf cache now qso = .ok (false, c') := by
  refine ⟨if wf then cache else insertCache cache (key_of qso) (.good qso), ?_⟩
  rcases h with h | h
  · subst h
    cases wf <;> simp [already_sent]
  · cases rf <;> cases wf <;> simp [already_sent, h]

/-- Witness for C7's amended claim: the store was deleted between the
write and the read (`dbm.error` on open), and the query returns false. -/
theorem c7_amended_fail_open_witness :
    ∃ c', already_sent true false emptyCache 0 sampleQSO = .ok (false, c') :=
  c7_amended_fail_open true false emptyCache 0 sampleQSO (.inl rfl)

/-- Claim C8 (confirmed): for every raw record that normalizes
successfully, the stored timestamp is derived from the date-off field
when present (else date-on), and from the time-off field when present
(else time-on, else the midnight sentinel "0000"); `QSOData.normalize`
being a function, each record yields exactly that one timestamp. -/
theorem c8_datetime_preference (tz : Int) (lookup : String → Option String)
    (cfg : Config) (qso : RawQSO) (q : QSOData) (b : Bool)
    (hok : QSOData.normalize tz lookup cfg qso = .ok (q, b)) :
    (∀ doff, rawGet qso "QSO_DATE_OFF" = some doff →
       qso_timestamp tz doff
           ((rawGet qso "TIME_OFF").getD ((rawGet qso "TIME_ON").getD "0000"))
         = some q.timestamp) ∧
    (∀ toff d, rawGet qso "TIME_OFF" = some toff → rawGet qso "QSO_DATE" = some d →
       qso_timestamp tz ((rawGet qso "QSO_DATE_OFF").getD d) toff
         = some q.timestamp) ∧
    (rawGet qso "TIME_OFF" = none → rawGet qso "TIME_ON" = none →
       ∀ d, rawGet qso "QSO_DATE" = some d →
       qso_timestamp tz ((rawGet qso "QSO_DATE_OFF").getD d) "0000"
         = some q.timestamp) := by
  obtain ⟨d0, hd0, hts, _, _, _⟩ := normalize_ok_inv hok
  refine ⟨?_, ?_, ?_⟩
  · intro doff hoff
    rw [hoff] at hts
    simpa using hts
  · intro toff d htoff hd
    rw [hd] at hd0
    injection hd0 with hdd
    subst hdd
    rw [htoff] at hts
    simpa using hts
  · intro h1 h2 d hd
    rw [hd] at hd0
    injection hd0 with hdd
    subst hdd
    rw [h1, h2] at hts
    simpa using hts

/-- Witness for C8: on a record carrying both on- and off-fields, the
timestamp comes from date-off "20240115" and time-off "143000". -/
theorem c8_datetime_preference_witness :
    qso_timestamp 0 "20240115"
        ((rawGet sampleRawOff "TIME_OFF").getD ((rawGet sampleRawOff "TIME_ON").getD "0000"))
      = some 1705329000 :=
  (c8_datetime_preference 0 lk0 cfg0 sampleRawOff q0 true (by rfl)).1 "20240115" rfl

/-- Claim C9 (confirmed): whenever the `already_sent` check is about to
return `False` — key absent, entry stale, or the read failed — it first
stores the current record under the key (overwriting any prior entry),
so the cache is mutated by the mere check; in the main loop this happens
whether or not the record is subsequently mailed (`--no-email`), kept, or
refused by the SMTP server. -/
theorem c9_check_mutates_cache (rf : Bool) (cache : Cache) (now : Int)
    (qso : QSOData)
    (h : rf = true ∨ cache (key_of qso) = none ∨
         (∃ c, cache (key_of qso) = some (.good c) ∧
            ¬(c.timestamp > now - CACHE_EXPIRE))) :
    already_sent rf false cache now qso
      = .ok (false, insertCache cache (key_of qso) (.good qso)) ∧
    (∀ (opts : Opts) (tz : Int) (lookup : String → Option String) (cfg : Config)
       (sr : Bool) (raw : RawQSO) (b : Bool), opts.resend = false →
       QSOData.normalize tz lookup cfg raw = .ok (qso, b) →
       (mainStep opts tz lookup cfg rf false sr cache now raw).2.1
         = insertCache cache (key_of qso) (.good qso)) := by
  have h1 : already_sent rf false cache now qso
      = .ok (false, insertCache cache (key_of qso) (.good qso)) := by
    rcases h with h | h | ⟨c, hc, hst⟩
    · subst h
      simp [already_sent]
    · cases rf <;> simp [already_sent, h]
    · cases rf <;> simp [already_sent, hc, hst]
  refine ⟨h1, ?_⟩
  intro opts tz lookup cfg sr raw b hres hok
  cases hno : opts.no_email <;> cases hk : opts.keep <;>
    simp [mainStep, hok, hres, h1, hno, hk]

/-- Witness for C9 at a fresh cache: the check on `q0` returns false and
stores it, and a full loop iteration with mailing disabled still mutates
the cache. -/
theorem c9_check_mutates_cache_witness :
    already_sent false false emptyCache 0 q0
      = .ok (false, insertCache emptyCache (key_of q0) (.good q0)) ∧
    (mainStep ⟨false, true, true⟩ 0 lk0 cfg0 false false false emptyCache 0
        sampleRaw).2.1
      = insertCache emptyCache (key_of q0) (.good q0) := by
  have h := c9_check_mutates_cache false emptyCache 0 q0 (.inr (.inl rfl))
  exact ⟨h.1, h.2 ⟨false, true, true⟩ 0 lk0 cfg0 false sampleRaw true rfl (by rfl)⟩

/-- Claim C10 (confirmed): with mail sending disabled (`--no-email`) and
image keeping not requested, the cleanup `os.unlink(image_name)` runs
with `image_name` never assigned, so the first record that reaches
cleanup (any record that normalizes and passes — or skips — the
duplicate check) crashes the run with an UnboundLocalError. -/
theorem c10_unbound_image_crash (opts : Opts) (tz : Int)
    (lookup : String → Option String) (cfg : Config) (rf wf sr : Bool)
    (cache : Cache) (now : Int) (qso : RawQSO) (q : QSOData) (b : Bool)
    (hno : opts.no_email = true) (hkeep : opts.keep = false)
    (hok : QSOData.normalize tz lookup cfg qso = .ok (q, b))
    (hfresh : opts.resend = true ∨
      ∃ c', already_sent rf wf cache now q = .ok (false, c')) :
    (mainStep opts tz lookup cfg rf wf sr cache now qso).1
      = .error .unboundLocalAbort := by
  rcases hfresh with hres | ⟨c', hc⟩
  · simp [mainStep, hok, hres, hno, hkeep]
  · cases hres : opts.resend
    · simp [mainStep, hok, hres, hc, hno, hkeep]
    · simp [mainStep, hok, hres, hno, hkeep]

/-- Witness for C10: a valid record, an empty cache, `--no-email` set and
`--keep` unset crash the iteration. -/
theorem c10_unbound_image_crash_witness :
    (mainStep ⟨false, false, true⟩ 0 lk0 cfg0 false false false emptyCache 0
        sampleRaw).1
      = .error .unboundLocalAbort :=
  c10_unbound_image_crash ⟨false, false, true⟩ 0 lk0 cfg0 false false false
    emptyCache 0 sampleRaw q0 true rfl rfl (by rfl) (.inr ⟨_, rfl⟩)
